import Mathlib

/-!
Verification of the property-investment projection engine (`calculate_scenario`
in `app.py`) against its natural-language specification.

The engine is embedded shallowly: money amounts and rates are exact rationals
(`ℚ`), years are naturals, and the per-year mutation loop of the source becomes
a step function `stepYear` iterated by `stateAt`/`recordAt`.  The IRR solver is
delegated by the source to the external `numpy_financial.irr` routine, which is
not part of this repository; it is modelled from the specification (see `irr`).
-/

namespace PropertyCalc

/-- The fourteen scalar inputs of the engine (sidebar globals plus the four
explicit arguments of `calculate_scenario`). -/
structure ScenarioParameters where
  p_price : ℚ
  l_amount : ℚ
  i_rate : ℚ
  loan_term : ℕ
  interest_only_period : ℕ
  weekly_rent : ℚ
  vacancy_rate : ℚ
  annual_opex : ℚ
  land_tax : ℚ
  marginal_tax_rate : ℚ
  cap_growth : ℚ
  cpi_rate : ℚ
  holding_period : ℕ
deriving DecidableEq, Repr

/-- One row of the `data` ledger, in the column order of the source:
Year, Value, Loan, Rent, Opex, NOI, Interest, Principal, Tax,
Pre-Tax CF, Post-Tax CF. -/
structure YearRecord where
  year : ℕ
  value : ℚ
  loan : ℚ
  rent : ℚ
  opex : ℚ
  noi : ℚ
  interest : ℚ
  principal : ℚ
  tax : ℚ
  preTaxCF : ℚ
  postTaxCF : ℚ
deriving DecidableEq, Repr

/-- The allowed marginal tax rates of the selectbox. -/
def allowed_tax_rates : List ℚ := [0, 19/100, 325/1000, 37/100, 45/100, 47/100]

/-- The documented parameter domain (§3 of the specification): dollar amounts
are non-negative, all rate fields lie in [0,1], the interest-only period does
not exceed the loan term, the marginal tax rate is one of the allowed discrete
set, and the holding period is at least one year. -/
def InDomain (p : ScenarioParameters) : Prop :=
  0 ≤ p.p_price ∧ 0 ≤ p.l_amount ∧
  0 ≤ p.i_rate ∧ p.i_rate ≤ 1 ∧
  p.interest_only_period ≤ p.loan_term ∧
  0 ≤ p.weekly_rent ∧
  0 ≤ p.vacancy_rate ∧ p.vacancy_rate ≤ 1 ∧
  0 ≤ p.annual_opex ∧ 0 ≤ p.land_tax ∧
  p.marginal_tax_rate ∈ allowed_tax_rates ∧
  0 ≤ p.cap_growth ∧ p.cap_growth ≤ 1 ∧
  0 ≤ p.cpi_rate ∧ p.cpi_rate ≤ 1 ∧
  1 ≤ p.holding_period

instance (p : ScenarioParameters) : Decidable (InDomain p) := by
  unfold InDomain; infer_instance

/-- stamp_duty = p_price * 0.04 -/
def stamp_duty (p : ScenarioParameters) : ℚ := p.p_price * (4/100)

/-- closing_costs = 2000 -/
def closing_costs : ℚ := 2000

/-- total_upfront_cost = p_price + stamp_duty + closing_costs -/
def total_upfront_cost (p : ScenarioParameters) : ℚ :=
  p.p_price + stamp_duty p + closing_costs

/-- initial_equity = total_upfront_cost - l_amount -/
def initial_equity (p : ScenarioParameters) : ℚ :=
  total_upfront_cost p - p.l_amount

/-- `numpy_financial.pmt` with `fv = 0`, `when = end`: the (sign-negated)
periodic payment that amortizes present value `pv` over `nper` periods at
`rate`; for `rate = 0` it degenerates to `-(pv / nper)`. -/
def pmt (rate : ℚ) (nper : ℕ) (pv : ℚ) : ℚ :=
  if rate = 0 then -(pv / (nper : ℚ))
  else -(pv * rate * (1 + rate) ^ nper / ((1 + rate) ^ nper - 1))

/-- remaining_term = loan_term - (year - 1) (truncated at 0, as used under the
`remaining_term > 0` guard). -/
def remaining_term (p : ScenarioParameters) (year : ℕ) : ℕ :=
  p.loan_term - (year - 1)

/-- The loan-servicing branch of the loop: returns
(interest_payment, principal_payment) for the given year and current balance. -/
def loanCalc (p : ScenarioParameters) (year : ℕ) (current_loan : ℚ) : ℚ × ℚ :=
  if year ≤ p.interest_only_period then
    (current_loan * p.i_rate, 0)
  else if 0 < remaining_term p year then
    (current_loan * p.i_rate,
      -(pmt p.i_rate (remaining_term p year) current_loan)
        - current_loan * p.i_rate)
  else
    (0, 0)

/-- depreciation = 6000 if year <= 10 else 0 -/
def depreciation (year : ℕ) : ℚ := if year ≤ 10 then 6000 else 0

/-- `current_rent *= (1 + cpi_rate) if year > 1 else 1` (and likewise for
opex): the one-year inflation lag. -/
def inflate (p : ScenarioParameters) (year : ℕ) (x : ℚ) : ℚ :=
  x * (if 1 < year then 1 + p.cpi_rate else 1)

/-- The running balances mutated across loop iterations. -/
structure LoopState where
  current_loan : ℚ
  current_value : ℚ
  current_rent : ℚ
  current_opex : ℚ
  total_principal_paid : ℚ
deriving DecidableEq, Repr

/-- State of the running balances just before the `year = 1` iteration. -/
def initState (p : ScenarioParameters) : LoopState :=
  { current_loan := p.l_amount
    current_value := p.p_price
    current_rent := p.weekly_rent * 52 * (1 - p.vacancy_rate)
    current_opex := p.annual_opex + p.land_tax
    total_principal_paid := 0 }

/-- One iteration of the per-year loop (for `year ≥ 1`): produces the
appended `YearRecord` and the updated running balances. -/
def stepYear (p : ScenarioParameters) (year : ℕ) (s : LoopState) :
    YearRecord × LoopState :=
  let current_rent := inflate p year s.current_rent
  let current_opex := inflate p year s.current_opex
  let noi := current_rent - current_opex
  let interest_payment := (loanCalc p year s.current_loan).1
  let principal_payment := (loanCalc p year s.current_loan).2
  let loan_after := s.current_loan - principal_payment
  let current_loan := if loan_after < 0 then 0 else loan_after
  let total_principal_paid := s.total_principal_paid + principal_payment
  let taxable_income := noi - interest_payment - depreciation year
  let tax_payable := taxable_income * p.marginal_tax_rate
  let pre_tax_cf := noi - interest_payment - principal_payment
  let post_tax_cf := pre_tax_cf - tax_payable
  let current_value := s.current_value * (1 + p.cap_growth)
  (⟨year, current_value, current_loan, current_rent, current_opex, noi,
      interest_payment, principal_payment, tax_payable, pre_tax_cf,
      post_tax_cf⟩,
   ⟨current_loan, current_value, current_rent, current_opex,
      total_principal_paid⟩)

/-- Running balances after the iterations for years 1..k have executed. -/
def stateAt (p : ScenarioParameters) : ℕ → LoopState
  | 0 => initState p
  | k + 1 => (stepYear p (k + 1) (stateAt p k)).2

/-- The year-0 acquisition row appended by the source:
`data.append([year, p_price, l_amount, 0, 0, 0, 0, 0, 0, 0, -initial_equity])`. -/
def year0Record (p : ScenarioParameters) : YearRecord :=
  ⟨0, p.p_price, p.l_amount, 0, 0, 0, 0, 0, 0, 0, -(initial_equity p)⟩

/-- The ledger row appended for a given year. -/
def recordAt (p : ScenarioParameters) : ℕ → YearRecord
  | 0 => year0Record p
  | k + 1 => (stepYear p (k + 1) (stateAt p k)).1

/-- The full `data` ledger, one row per year 0..holding_period. -/
def ledger (p : ScenarioParameters) : List YearRecord :=
  (List.range (p.holding_period + 1)).map (recordAt p)

/-- sale_price = data[-1][1] -/
def sale_price (p : ScenarioParameters) : ℚ :=
  (recordAt p p.holding_period).value

/-- selling_costs = sale_price * 0.025 -/
def selling_costs (p : ScenarioParameters) : ℚ :=
  sale_price p * (25/1000)

/-- loan_balance = data[-1][2] -/
def loan_balance (p : ScenarioParameters) : ℚ :=
  (recordAt p p.holding_period).loan

/-- cost_base = p_price + stamp_duty + closing_costs -/
def cost_base (p : ScenarioParameters) : ℚ :=
  p.p_price + stamp_duty p + closing_costs

/-- gross_gain = sale_price - selling_costs - cost_base -/
def gross_gain (p : ScenarioParameters) : ℚ :=
  sale_price p - selling_costs p - cost_base p

/-- taxable_gain = gross_gain * 0.5 if holding_period > 1 else gross_gain -/
def taxable_gain (p : ScenarioParameters) : ℚ :=
  if 1 < p.holding_period then gross_gain p * (1/2) else gross_gain p

/-- cgt_payable = taxable_gain * marginal_tax_rate -/
def cgt_payable (p : ScenarioParameters) : ℚ :=
  taxable_gain p * p.marginal_tax_rate

/-- net_proceeds_post_tax = sale_price - selling_costs - loan_balance - cgt_payable -/
def net_proceeds_post_tax (p : ScenarioParameters) : ℚ :=
  sale_price p - selling_costs p - loan_balance p - cgt_payable p

/-- net_proceeds_pre_tax = sale_price - selling_costs - loan_balance -/
def net_proceeds_pre_tax (p : ScenarioParameters) : ℚ :=
  sale_price p - selling_costs p - loan_balance p

/-- The interior years appended to the cash-flow streams inside the loop:
years 1..holding_period-1 (the loop appends only while `year < holding_period`). -/
def interior_years (p : ScenarioParameters) : List ℕ :=
  List.range' 1 (p.holding_period - 1)

/-- cash_flows_pre_tax: `[-initial_equity]`, then each interior year's pre-tax
CF, then the withheld final-year CF plus the pre-tax net sale proceeds. -/
def cash_flows_pre_tax (p : ScenarioParameters) : List ℚ :=
  -(initial_equity p) ::
    (((interior_years p).map fun y => (recordAt p y).preTaxCF)
      ++ [(recordAt p p.holding_period).preTaxCF + net_proceeds_pre_tax p])

/-- cash_flows_post_tax: `[-initial_equity]`, then each interior year's
post-tax CF, then the withheld final-year CF plus the post-tax net proceeds. -/
def cash_flows_post_tax (p : ScenarioParameters) : List ℚ :=
  -(initial_equity p) ::
    (((interior_years p).map fun y => (recordAt p y).postTaxCF)
      ++ [(recordAt p p.holding_period).postTaxCF + net_proceeds_post_tax p])

/-- total_cash_in = sum(df_row[10] for df_row in data[1:]) + net_proceeds_post_tax -/
def total_cash_in (p : ScenarioParameters) : ℚ :=
  (((ledger p).drop 1).map YearRecord.postTaxCF).sum + net_proceeds_post_tax p

/-- total_cash_out = initial_equity + total_principal_paid -/
def total_cash_out (p : ScenarioParameters) : ℚ :=
  initial_equity p + (stateAt p p.holding_period).total_principal_paid

/-- coc_total_outlay = total_cash_in / total_cash_out if total_cash_out > 0 else 0 -/
def coc_total_outlay (p : ScenarioParameters) : ℚ :=
  if 0 < total_cash_out p then total_cash_in p / total_cash_out p else 0

/-- Net profit = sum of the entire post-tax cash-flow stream. -/
def net_profit (p : ScenarioParameters) : ℚ :=
  (cash_flows_post_tax p).sum

/-- Net present value of a cash-flow stream at rate `r` (period 0
undiscounted), the function whose root the IRR solver seeks. -/
def npv (r : ℚ) (cfs : List ℚ) : ℚ :=
  (cfs.enum.map fun ic => ic.2 / (1 + r) ^ ic.1).sum

/-- Bounded bisection on `npv · cfs` over a bracket, keeping the half whose
endpoint values do not have the same strict sign. -/
def bisectIRR (cfs : List ℚ) : ℕ → ℚ → ℚ → ℚ
  | 0, lo, hi => (lo + hi) / 2
  | n + 1, lo, hi =>
    let mid := (lo + hi) / 2
    if npv lo cfs * npv mid cfs ≤ 0 then bisectIRR cfs n lo mid
    else bisectIRR cfs n mid hi

/-- Bounded scan for a sign change of `npv · cfs` on a grid of rates, starting
at `lo` with step 1/10; reports failure when the budget is exhausted. -/
def scanBracket (cfs : List ℚ) : ℕ → ℚ → Option (ℚ × ℚ)
  | 0, _ => none
  | n + 1, lo =>
    let hi := lo + 1/10
    if npv lo cfs * npv hi cfs ≤ 0 then some (lo, hi)
    else scanBracket cfs n hi

/-- Modelled from the spec: the IRR solver (`irr(cashflows) -> rate or
"no solution"`), implemented in the source by the external
`numpy_financial.irr` routine, which is not part of this repository.  Per §4.2
it performs a numerical root-find of the net present value with bounded
iteration: an all-positive or all-negative stream has no real root and is
reported as no-solution; otherwise a sign change of the NPV is sought on a
bounded grid and refined by bisection, and failure to find a bracket within
the budget is likewise reported as no-solution. -/
def irr (cfs : List ℚ) : Option ℚ :=
  if cfs.all (fun c => 0 < c) || cfs.all (fun c => c < 0) then none
  else
    match scanBracket cfs 110 (-(99/100)) with
    | none => none
    | some (lo, hi) => some (bisectIRR cfs 50 lo hi)

/-- The dictionary returned by `calculate_scenario`. -/
structure ScenarioResult where
  irr_post_tax : Option ℚ
  irr_pre_tax : Option ℚ
  coc : ℚ
  net_profit : ℚ
  data : List YearRecord
deriving DecidableEq, Repr

/-- The full engine: ledger, cash-flow streams, IRR solves and summary
metrics, as assembled by `calculate_scenario`. -/
def calculate_scenario (p : ScenarioParameters) : ScenarioResult :=
  { irr_post_tax := irr (cash_flows_post_tax p)
    irr_pre_tax := irr (cash_flows_pre_tax p)
    coc := coc_total_outlay p
    net_profit := net_profit p
    data := ledger p }

/-- Override the two swept assumptions, keeping every other input of `base`. -/
def withRates (base : ScenarioParameters) (ir cg : ℚ) : ScenarioParameters :=
  { base with i_rate := ir, cap_growth := cg }

/-- The sensitivity sweep: one independent engine run per
(interest rate, growth rate) pair, collecting the post-tax IRRs. -/
def sweep (base : ScenarioParameters) (interest_ranges growth_ranges : List ℚ) :
    List (List (Option ℚ)) :=
  interest_ranges.map fun ir =>
    growth_ranges.map fun cg =>
      (calculate_scenario (withRates base ir cg)).irr_post_tax

/-- The default interest-rate axis of the sweep. -/
def interest_ranges : List ℚ := [4/100, 5/100, 6/100, 7/100, 8/100]

/-- The default capital-growth axis of the sweep. -/
def growth_ranges : List ℚ := [3/100, 4/100, 5/100, 6/100, 7/100]

/-- The 5×5 matrix built in the sensitivity tab. -/
def sensitivity_matrix (base : ScenarioParameters) : List (List (Option ℚ)) :=
  sweep base interest_ranges growth_ranges

/-- The end-to-end example of §8 of the specification. -/
def exampleParams : ScenarioParameters :=
  { p_price := 750000
    l_amount := 600000
    i_rate := 6/100
    loan_term := 30
    interest_only_period := 0
    weekly_rent := 600
    vacancy_rate := 3/100
    annual_opex := 6000
    land_tax := 0
    marginal_tax_rate := 37/100
    cap_growth := 5/100
    cpi_rate := 25/1000
    holding_period := 10 }

theorem exampleParams_inDomain : InDomain exampleParams := by
  unfold InDomain exampleParams allowed_tax_rates
  norm_num

/-! ### Step equations -/

theorem stepYear_state_rent (p : ScenarioParameters) (y : ℕ) (s : LoopState) :
    (stepYear p y s).2.current_rent = inflate p y s.current_rent := rfl

theorem stepYear_state_opex (p : ScenarioParameters) (y : ℕ) (s : LoopState) :
    (stepYear p y s).2.current_opex = inflate p y s.current_opex := rfl

theorem stepYear_record_rent (p : ScenarioParameters) (y : ℕ) (s : LoopState) :
    (stepYear p y s).1.rent = inflate p y s.current_rent := rfl

theorem stepYear_record_opex (p : ScenarioParameters) (y : ℕ) (s : LoopState) :
    (stepYear p y s).1.opex = inflate p y s.current_opex := rfl

theorem stepYear_record_noi (p : ScenarioParameters) (y : ℕ) (s : LoopState) :
    (stepYear p y s).1.noi = (stepYear p y s).1.rent - (stepYear p y s).1.opex := rfl

theorem stepYear_record_interest (p : ScenarioParameters) (y : ℕ) (s : LoopState) :
    (stepYear p y s).1.interest = (loanCalc p y s.current_loan).1 := rfl

theorem stepYear_record_principal (p : ScenarioParameters) (y : ℕ) (s : LoopState) :
    (stepYear p y s).1.principal = (loanCalc p y s.current_loan).2 := rfl

theorem stepYear_record_tax (p : ScenarioParameters) (y : ℕ) (s : LoopState) :
    (stepYear p y s).1.tax
      = ((stepYear p y s).1.noi - (stepYear p y s).1.interest - depreciation y)
          * p.marginal_tax_rate := rfl

theorem stepYear_record_preTaxCF (p : ScenarioParameters) (y : ℕ) (s : LoopState) :
    (stepYear p y s).1.preTaxCF
      = (stepYear p y s).1.noi - (stepYear p y s).1.interest
          - (stepYear p y s).1.principal := rfl

theorem stepYear_record_postTaxCF (p : ScenarioParameters) (y : ℕ) (s : LoopState) :
    (stepYear p y s).1.postTaxCF
      = (stepYear p y s).1.preTaxCF - (stepYear p y s).1.tax := rfl

theorem stepYear_state_loan (p : ScenarioParameters) (y : ℕ) (s : LoopState) :
    (stepYear p y s).2.current_loan
      = if s.current_loan - (loanCalc p y s.current_loan).2 < 0 then 0
        else s.current_loan - (loanCalc p y s.current_loan).2 := rfl

theorem stepYear_record_loan (p : ScenarioParameters) (y : ℕ) (s : LoopState) :
    (stepYear p y s).1.loan = (stepYear p y s).2.current_loan := rfl

theorem stepYear_state_principal_paid (p : ScenarioParameters) (y : ℕ) (s : LoopState) :
    (stepYear p y s).2.total_principal_paid
      = s.total_principal_paid + (loanCalc p y s.current_loan).2 := rfl

theorem stateAt_succ (p : ScenarioParameters) (k : ℕ) :
    stateAt p (k + 1) = (stepYear p (k + 1) (stateAt p k)).2 := rfl

theorem recordAt_succ (p : ScenarioParameters) (k : ℕ) :
    recordAt p (k + 1) = (stepYear p (k + 1) (stateAt p k)).1 := rfl

/-! ### Rent and operating-expense closed forms -/

theorem stateAt_current_rent (p : ScenarioParameters) (k : ℕ) :
    (stateAt p k).current_rent
      = p.weekly_rent * 52 * (1 - p.vacancy_rate) * (1 + p.cpi_rate) ^ (k - 1) := by
  induction k with
  | zero => simp [stateAt, initState]
  | succ n ih =>
    rw [stateAt_succ, stepYear_state_rent, inflate, ih]
    rcases Nat.eq_zero_or_pos n with h | h
    · subst h; simp
    · have h1 : 1 < n + 1 := by omega
      rw [if_pos h1]
      have hn : n + 1 - 1 = (n - 1) + 1 := by omega
      rw [hn, pow_succ]; ring

theorem stateAt_current_opex (p : ScenarioParameters) (k : ℕ) :
    (stateAt p k).current_opex
      = (p.annual_opex + p.land_tax) * (1 + p.cpi_rate) ^ (k - 1) := by
  induction k with
  | zero => simp [stateAt, initState]
  | succ n ih =>
    rw [stateAt_succ, stepYear_state_opex, inflate, ih]
    rcases Nat.eq_zero_or_pos n with h | h
    · subst h; simp
    · have h1 : 1 < n + 1 := by omega
      rw [if_pos h1]
      have hn : n + 1 - 1 = (n - 1) + 1 := by omega
      rw [hn, pow_succ]; ring

theorem recordAt_rent (p : ScenarioParameters) (k : ℕ) (h1 : 1 ≤ k) :
    (recordAt p k).rent = (stateAt p k).current_rent := by
  obtain ⟨m, rfl⟩ : ∃ m, k = m + 1 := ⟨k - 1, by omega⟩
  rfl

theorem recordAt_opex (p : ScenarioParameters) (k : ℕ) (h1 : 1 ≤ k) :
    (recordAt p k).opex = (stateAt p k).current_opex := by
  obtain ⟨m, rfl⟩ : ∃ m, k = m + 1 := ⟨k - 1, by omega⟩
  rfl

/-- Claim C3: for every in-domain parameter set and every projection year
k ≥ 1, the recorded rent equals weekly rent × 52 × (1 − vacancy rate) ×
(1 + CPI)^(k−1), the recorded opex equals (annual operating expenses + land
tax) × (1 + CPI)^(k−1), and NOI is their difference; in particular year 1
carries no inflation (the one-year lag). -/
theorem C3_inflation_lag (p : ScenarioParameters) (k : ℕ) (_hp : InDomain p)
    (h1 : 1 ≤ k) (h2 : k ≤ p.holding_period) :
    (recordAt p k).rent
        = p.weekly_rent * 52 * (1 - p.vacancy_rate) * (1 + p.cpi_rate) ^ (k - 1)
      ∧ (recordAt p k).opex
        = (p.annual_opex + p.land_tax) * (1 + p.cpi_rate) ^ (k - 1)
      ∧ (recordAt p k).noi = (recordAt p k).rent - (recordAt p k).opex := by
  refine ⟨?_, ?_, ?_⟩
  · rw [recordAt_rent p k h1, stateAt_current_rent]
  · rw [recordAt_opex p k h1, stateAt_current_opex]
  · obtain ⟨m, rfl⟩ : ∃ m, k = m + 1 := ⟨k - 1, by omega⟩
    rfl

/-- Witness for C3 at the end-to-end example of §8, year 1. -/
theorem C3_inflation_lag_witness :
    (recordAt exampleParams 1).rent
        = exampleParams.weekly_rent * 52 * (1 - exampleParams.vacancy_rate)
            * (1 + exampleParams.cpi_rate) ^ (1 - 1)
      ∧ (recordAt exampleParams 1).opex
        = (exampleParams.annual_opex + exampleParams.land_tax)
            * (1 + exampleParams.cpi_rate) ^ (1 - 1)
      ∧ (recordAt exampleParams 1).noi
        = (recordAt exampleParams 1).rent - (recordAt exampleParams 1).opex :=
  C3_inflation_lag exampleParams 1 exampleParams_inDomain (by decide) (by decide)

/-! ### Amortization lemmas -/

theorem loanCalc_interest_eq (p : ScenarioParameters) (y : ℕ) (L : ℚ) :
    (loanCalc p y L).1
      = if y ≤ p.interest_only_period then L * p.i_rate
        else if 0 < remaining_term p y then L * p.i_rate else 0 := by
  unfold loanCalc
  split
  · rfl
  · split
    · rfl
    · rfl

theorem loanCalc_principal_eq (p : ScenarioParameters) (y : ℕ) (L : ℚ) :
    (loanCalc p y L).2
      = if y ≤ p.interest_only_period then 0
        else if 0 < remaining_term p y then
          -(pmt p.i_rate (remaining_term p y) L) - L * p.i_rate
        else 0 := by
  unfold loanCalc
  split
  · rfl
  · split
    · rfl
    · rfl

theorem pmt_zero_rate (n : ℕ) (L : ℚ) : -(pmt 0 n L) = L / (n : ℚ) := by
  rw [pmt, if_pos rfl, neg_neg]

/-- In the amortizing phase at a positive rate the principal component of the
annuity payment is `L·r / ((1+r)^n − 1)`. -/
theorem principal_closed_form (r : ℚ) (n : ℕ) (L : ℚ) (hr : 0 < r) (hn : 0 < n) :
    -(pmt r n L) - L * r = L * r / ((1 + r) ^ n - 1) := by
  have hne : r ≠ 0 := ne_of_gt hr
  have hpow : (1 : ℚ) < (1 + r) ^ n :=
    one_lt_pow₀ (by linarith) hn.ne'
  have hD : ((1 + r) ^ n - 1) ≠ 0 := ne_of_gt (by linarith)
  rw [pmt, if_neg hne]
  field_simp
  ring

/-- For a non-negative rate and balance, the principal payment of any year is
non-negative and never exceeds the balance. -/
theorem loanCalc_principal_bounds (p : ScenarioParameters) (y : ℕ) (L : ℚ)
    (hr : 0 ≤ p.i_rate) (hL : 0 ≤ L) :
    0 ≤ (loanCalc p y L).2 ∧ (loanCalc p y L).2 ≤ L := by
  rw [loanCalc_principal_eq]
  by_cases hio : y ≤ p.interest_only_period
  · rw [if_pos hio]; exact ⟨le_refl 0, hL⟩
  rw [if_neg hio]
  by_cases hrem : 0 < remaining_term p y
  case neg => rw [if_neg hrem]; exact ⟨le_refl 0, hL⟩
  rw [if_pos hrem]
  rcases eq_or_lt_of_le hr with hr0 | hrpos
  · have hform : -(pmt p.i_rate (remaining_term p y) L) - L * p.i_rate
        = L / (remaining_term p y : ℚ) := by
      rw [← hr0, pmt_zero_rate]; ring
    rw [hform]
    have hn1 : (1 : ℚ) ≤ (remaining_term p y : ℚ) := by exact_mod_cast hrem
    exact ⟨div_nonneg hL (by linarith), div_le_self hL hn1⟩
  · rw [principal_closed_form p.i_rate (remaining_term p y) L hrpos hrem]
    have hpow : (1 : ℚ) < (1 + p.i_rate) ^ remaining_term p y :=
      one_lt_pow₀ (by linarith) hrem.ne'
    have hD : (0 : ℚ) < (1 + p.i_rate) ^ remaining_term p y - 1 := by linarith
    constructor
    · exact div_nonneg (mul_nonneg hL hr) (le_of_lt hD)
    · rw [div_le_iff₀ hD]
      have hrD : p.i_rate ≤ (1 + p.i_rate) ^ remaining_term p y - 1 := by
        have := le_self_pow₀ (by linarith : (1:ℚ) ≤ 1 + p.i_rate) hrem.ne'
        linarith
      calc L * p.i_rate ≤ L * ((1 + p.i_rate) ^ remaining_term p y - 1) :=
            mul_le_mul_of_nonneg_left hrD hL
        _ = L * ((1 + p.i_rate) ^ remaining_term p y - 1) := rfl

/-- The running loan balance stays non-negative and, together with the
cumulative principal paid, always sums back to the original principal. -/
theorem stateAt_loan_nonneg_conserved (p : ScenarioParameters) (hp : InDomain p)
    (k : ℕ) :
    0 ≤ (stateAt p k).current_loan ∧
    (stateAt p k).current_loan + (stateAt p k).total_principal_paid
      = p.l_amount := by
  obtain ⟨-, hla, hir, -⟩ := hp
  induction k with
  | zero => exact ⟨hla, by simp [stateAt, initState]⟩
  | succ n ih =>
    obtain ⟨ih1, ih2⟩ := ih
    have hb := loanCalc_principal_bounds p (n + 1) (stateAt p n).current_loan hir ih1
    rw [stateAt_succ, stepYear_state_loan, stepYear_state_principal_paid]
    have hnn : ¬ ((stateAt p n).current_loan
        - (loanCalc p (n + 1) (stateAt p n).current_loan).2 < 0) :=
      not_lt.mpr (by linarith [hb.2])
    rw [if_neg hnn]
    exact ⟨by linarith [hb.2], by linarith⟩

theorem stateAt_loan_mono (p : ScenarioParameters) (hp : InDomain p) (k : ℕ) :
    (stateAt p (k + 1)).current_loan ≤ (stateAt p k).current_loan := by
  have hnon := (stateAt_loan_nonneg_conserved p hp k).1
  have hir : 0 ≤ p.i_rate := by obtain ⟨-, -, hir, -⟩ := hp; exact hir
  have hb := loanCalc_principal_bounds p (k + 1) (stateAt p k).current_loan hir hnon
  rw [stateAt_succ, stepYear_state_loan]
  have hnn : ¬ ((stateAt p k).current_loan
      - (loanCalc p (k + 1) (stateAt p k).current_loan).2 < 0) :=
    not_lt.mpr (by linarith [hb.2])
  rw [if_neg hnn]
  linarith [hb.1]

theorem recordAt_loan (p : ScenarioParameters) (k : ℕ) :
    (recordAt p k).loan = (stateAt p k).current_loan := by
  cases k with
  | zero => rfl
  | succ n => rfl

/-- Claim C4: for every in-domain parameter set the recorded loan balance is
non-increasing from each year to the next and never negative. -/
theorem C4_loan_monotone_nonneg (p : ScenarioParameters) (k : ℕ)
    (hp : InDomain p) (_hk : k < p.holding_period) :
    (recordAt p (k + 1)).loan ≤ (recordAt p k).loan
      ∧ 0 ≤ (recordAt p k).loan ∧ 0 ≤ (recordAt p (k + 1)).loan := by
  rw [recordAt_loan, recordAt_loan]
  exact ⟨stateAt_loan_mono p hp k,
    (stateAt_loan_nonneg_conserved p hp k).1,
    (stateAt_loan_nonneg_conserved p hp (k + 1)).1⟩

/-- Witness for C4 at the §8 example, step from year 0 to year 1. -/
theorem C4_loan_monotone_nonneg_witness :
    (recordAt exampleParams 1).loan ≤ (recordAt exampleParams 0).loan
      ∧ 0 ≤ (recordAt exampleParams 0).loan
      ∧ 0 ≤ (recordAt exampleParams 1).loan :=
  C4_loan_monotone_nonneg exampleParams 0 exampleParams_inDomain (by decide)

/-- Claim C10: at the end of every projection year the loan balance plus the
cumulative total principal paid equals the original loan principal exactly. -/
theorem C10_principal_conservation (p : ScenarioParameters) (k : ℕ)
    (hp : InDomain p) (_hk : k ≤ p.holding_period) :
    (stateAt p k).current_loan + (stateAt p k).total_principal_paid
      = p.l_amount :=
  (stateAt_loan_nonneg_conserved p hp k).2

/-- Witness for C10 at the §8 example, end of year 1. -/
theorem C10_principal_conservation_witness :
    (stateAt exampleParams 1).current_loan
        + (stateAt exampleParams 1).total_principal_paid
      = exampleParams.l_amount :=
  C10_principal_conservation exampleParams 1 exampleParams_inDomain (by decide)

/-! ### Fully interest-only loans (claim C8) -/

theorem loanCalc_principal_io_eq_term (p : ScenarioParameters)
    (hio : p.interest_only_period = p.loan_term) (y : ℕ) (L : ℚ) :
    (loanCalc p y L).2 = 0 := by
  rw [loanCalc_principal_eq]
  by_cases h : y ≤ p.interest_only_period
  · rw [if_pos h]
  · rw [if_neg h]
    have hz : remaining_term p y = 0 := by unfold remaining_term; omega
    rw [hz, if_neg (lt_irrefl 0)]

theorem stateAt_loan_io_eq_term (p : ScenarioParameters) (hp : InDomain p)
    (hio : p.interest_only_period = p.loan_term) (k : ℕ) :
    (stateAt p k).current_loan = p.l_amount := by
  obtain ⟨-, hla, -⟩ := hp
  induction k with
  | zero => rfl
  | succ n ih =>
    rw [stateAt_succ, stepYear_state_loan,
      loanCalc_principal_io_eq_term p hio (n + 1), sub_zero, ih,
      if_neg (not_lt.mpr hla)]

/-- Claim C8: with an interest-only period equal to the loan term, every
projection year records a zero principal payment and the final record's loan
balance equals the loan principal. -/
theorem C8_fully_interest_only (p : ScenarioParameters) (k : ℕ)
    (hp : InDomain p) (hio : p.interest_only_period = p.loan_term)
    (h1 : 1 ≤ k) (_hk : k ≤ p.holding_period) :
    (recordAt p k).principal = 0
      ∧ (recordAt p p.holding_period).loan = p.l_amount := by
  constructor
  · obtain ⟨m, rfl⟩ : ∃ m, k = m + 1 := ⟨k - 1, by omega⟩
    rw [recordAt_succ, stepYear_record_principal,
      loanCalc_principal_io_eq_term p hio (m + 1)]
  · rw [recordAt_loan]
    exact stateAt_loan_io_eq_term p hp hio p.holding_period

/-- A fully interest-only in-domain parameter set for the C8 witness. -/
def pInterestOnly : ScenarioParameters :=
  { p_price := 500000
    l_amount := 400000
    i_rate := 1/20
    loan_term := 5
    interest_only_period := 5
    weekly_rent := 500
    vacancy_rate := 0
    annual_opex := 5000
    land_tax := 0
    marginal_tax_rate := 0
    cap_growth := 0
    cpi_rate := 0
    holding_period := 3 }

theorem pInterestOnly_inDomain : InDomain pInterestOnly := by
  unfold InDomain pInterestOnly allowed_tax_rates
  norm_num

/-- Witness for C8 on a fully interest-only scenario, year 1. -/
theorem C8_fully_interest_only_witness :
    (recordAt pInterestOnly 1).principal = 0
      ∧ (recordAt pInterestOnly pInterestOnly.holding_period).loan
        = pInterestOnly.l_amount :=
  C8_fully_interest_only pInterestOnly 1 pInterestOnly_inDomain (by decide)
    (by decide) (by decide)

/-! ### Zero-rate amortization (claim C9) -/

/-- Claim C9: at a zero interest rate, in every amortizing-phase year the
annuity payment applied by the engine to the current balance degenerates to
balance ÷ remaining term exactly, so the recorded interest payment is 0 and
the recorded principal payment is balance ÷ remaining term. -/
theorem C9_zero_rate_amortization (p : ScenarioParameters) (year : ℕ)
    (_hp : InDomain p) (hr : p.i_rate = 0)
    (hio : p.interest_only_period < year) (hrem : 0 < remaining_term p year)
    (_hk : year ≤ p.holding_period) :
    -(pmt p.i_rate (remaining_term p year)
          ((stateAt p (year - 1)).current_loan))
        = (stateAt p (year - 1)).current_loan / (remaining_term p year : ℚ)
      ∧ (recordAt p year).interest = 0
      ∧ (recordAt p year).principal
        = (stateAt p (year - 1)).current_loan / (remaining_term p year : ℚ) := by
  obtain ⟨m, rfl⟩ : ∃ m, year = m + 1 := ⟨year - 1, by omega⟩
  simp only [Nat.add_sub_cancel]
  have hnio : ¬ (m + 1 ≤ p.interest_only_period) := by omega
  refine ⟨?_, ?_, ?_⟩
  · rw [hr, pmt_zero_rate]
  · rw [recordAt_succ, stepYear_record_interest, loanCalc_interest_eq,
      if_neg hnio, if_pos hrem, hr, mul_zero]
  · rw [recordAt_succ, stepYear_record_principal, loanCalc_principal_eq,
      if_neg hnio, if_pos hrem, hr, mul_zero, sub_zero, pmt_zero_rate]

/-- A zero-interest-rate in-domain parameter set for the C9 witness. -/
def pZeroRate : ScenarioParameters :=
  { p_price := 100000
    l_amount := 80000
    i_rate := 0
    loan_term := 30
    interest_only_period := 0
    weekly_rent := 200
    vacancy_rate := 0
    annual_opex := 1000
    land_tax := 0
    marginal_tax_rate := 0
    cap_growth := 0
    cpi_rate := 0
    holding_period := 2 }

theorem pZeroRate_inDomain : InDomain pZeroRate := by
  unfold InDomain pZeroRate allowed_tax_rates
  norm_num

/-- Witness for C9 on a zero-rate scenario, year 1. -/
theorem C9_zero_rate_amortization_witness :
    -(pmt pZeroRate.i_rate (remaining_term pZeroRate 1)
          ((stateAt pZeroRate (1 - 1)).current_loan))
        = (stateAt pZeroRate (1 - 1)).current_loan
            / (remaining_term pZeroRate 1 : ℚ)
      ∧ (recordAt pZeroRate 1).interest = 0
      ∧ (recordAt pZeroRate 1).principal
        = (stateAt pZeroRate (1 - 1)).current_loan
            / (remaining_term pZeroRate 1 : ℚ) :=
  C9_zero_rate_amortization pZeroRate 1 pZeroRate_inDomain (by decide)
    (by decide) (by decide) (by decide)

/-! ### List-indexing helpers -/

theorem getD_cons_add_one {α : Type} (a : α) (l : List α) (n : ℕ) (d : α) :
    (a :: l).getD (n + 1) d = l.getD n d := rfl

theorem getD_append_left {α : Type} (l l' : List α) :
    ∀ (i : ℕ) (d : α), i < l.length → (l ++ l').getD i d = l.getD i d := by
  induction l with
  | nil => intro i d h; simp at h
  | cons a t ih =>
    intro i d h
    cases i with
    | zero => rfl
    | succ n =>
      simp only [List.cons_append, List.getD_cons_succ]
      exact ih n d (by simpa using h)

theorem getD_append_last {α : Type} (b d : α) :
    ∀ l : List α, (l ++ [b]).getD l.length d = b := by
  intro l
  induction l with
  | nil => rfl
  | cons a t ih => simpa only [List.cons_append, List.getD_cons_succ] using ih

theorem getD_map_range' (f : ℕ → ℚ) :
    ∀ (n s i : ℕ), i < n → ((List.range' s n).map f).getD i 0 = f (s + i) := by
  intro n
  induction n with
  | zero => intro s i h; omega
  | succ m ih =>
    intro s i h
    rw [List.range'_succ]
    cases i with
    | zero => simp
    | succ j =>
      simp only [List.map_cons, List.getD_cons_succ]
      rw [ih (s + 1) j (by omega)]
      congr 1
      omega

/-! ### The year-0 record (claim C1) -/

theorem recordAt_zero (p : ScenarioParameters) : recordAt p 0 = year0Record p := rfl

/-- Counterexample to claim C1 as stated: the year-0 record written by the
source carries `-initial_equity` in its post-tax cash-flow column
(`data.append([year, p_price, l_amount, 0,0,0,0,0,0,0, -initial_equity])`),
so at the §8 example — an in-domain input — that flow field is −182000, not 0. -/
theorem C1_counterexample :
    InDomain exampleParams ∧ (recordAt exampleParams 0).postTaxCF ≠ 0 :=
  ⟨exampleParams_inDomain, by
    show -(initial_equity exampleParams) ≠ 0
    unfold initial_equity total_upfront_cost stamp_duty closing_costs exampleParams
    norm_num⟩

/-- Claim C1 (amended): the year-0 record has value = purchase price, loan =
loan principal, and every flow field zero except the post-tax CF column,
which carries −initial equity; index 0 of both cash-flow streams is likewise
−initial equity. -/
theorem C1_year0_record (p : ScenarioParameters) (_hp : InDomain p) :
    (recordAt p 0).value = p.p_price
      ∧ (recordAt p 0).loan = p.l_amount
      ∧ (recordAt p 0).rent = 0
      ∧ (recordAt p 0).opex = 0
      ∧ (recordAt p 0).noi = 0
      ∧ (recordAt p 0).interest = 0
      ∧ (recordAt p 0).principal = 0
      ∧ (recordAt p 0).tax = 0
      ∧ (recordAt p 0).preTaxCF = 0
      ∧ (recordAt p 0).postTaxCF = -(initial_equity p)
      ∧ (cash_flows_pre_tax p).getD 0 0 = -(initial_equity p)
      ∧ (cash_flows_post_tax p).getD 0 0 = -(initial_equity p) :=
  ⟨rfl, rfl, rfl, rfl, rfl, rfl, rfl, rfl, rfl, rfl, rfl, rfl⟩

/-- Witness for the amended C1 at the §8 example. -/
theorem C1_year0_record_witness :
    (recordAt exampleParams 0).value = exampleParams.p_price
      ∧ (recordAt exampleParams 0).loan = exampleParams.l_amount
      ∧ (recordAt exampleParams 0).rent = 0
      ∧ (recordAt exampleParams 0).opex = 0
      ∧ (recordAt exampleParams 0).noi = 0
      ∧ (recordAt exampleParams 0).interest = 0
      ∧ (recordAt exampleParams 0).principal = 0
      ∧ (recordAt exampleParams 0).tax = 0
      ∧ (recordAt exampleParams 0).preTaxCF = 0
      ∧ (recordAt exampleParams 0).postTaxCF = -(initial_equity exampleParams)
      ∧ (cash_flows_pre_tax exampleParams).getD 0 0
        = -(initial_equity exampleParams)
      ∧ (cash_flows_post_tax exampleParams).getD 0 0
        = -(initial_equity exampleParams) :=
  C1_year0_record exampleParams exampleParams_inDomain

/-! ### Cash-flow stream shape (claim C2) -/

theorem recordAt_pre_sub_post (p : ScenarioParameters) (k : ℕ) (h1 : 1 ≤ k) :
    (recordAt p k).preTaxCF - (recordAt p k).postTaxCF = (recordAt p k).tax := by
  obtain ⟨m, rfl⟩ : ∃ m, k = m + 1 := ⟨k - 1, by omega⟩
  rw [recordAt_succ, stepYear_record_postTaxCF]
  ring

theorem net_proceeds_sub (p : ScenarioParameters) :
    net_proceeds_pre_tax p - net_proceeds_post_tax p = cgt_payable p := by
  unfold net_proceeds_pre_tax net_proceeds_post_tax
  ring

/-- A highly leveraged but in-domain parameter set: positive upfront cost yet
a loan principal exceeding it. -/
def pHighLeverage : ScenarioParameters :=
  { p_price := 0
    l_amount := 600000
    i_rate := 0
    loan_term := 30
    interest_only_period := 0
    weekly_rent := 0
    vacancy_rate := 0
    annual_opex := 0
    land_tax := 0
    marginal_tax_rate := 0
    cap_growth := 0
    cpi_rate := 0
    holding_period := 1 }

theorem pHighLeverage_inDomain : InDomain pHighLeverage := by
  unfold InDomain pHighLeverage allowed_tax_rates
  norm_num

/-- Counterexample to claim C2 as stated: with a positive total upfront cost
(here 2000) but a larger loan principal, the initial equity is negative, so
index 0 of the cash-flow streams is +598000 — not strictly negative. -/
theorem C2_counterexample :
    InDomain pHighLeverage ∧ 0 < total_upfront_cost pHighLeverage
      ∧ ¬ ((cash_flows_pre_tax pHighLeverage).getD 0 0 < 0) := by
  refine ⟨pHighLeverage_inDomain, ?_, ?_⟩
  · unfold total_upfront_cost stamp_duty closing_costs pHighLeverage
    norm_num
  · show ¬ (-(initial_equity pHighLeverage) < 0)
    unfold initial_equity total_upfront_cost stamp_duty closing_costs pHighLeverage
    norm_num

/-- Claim C2 (amended): both streams have length holding_period + 1; both
index-0 entries equal −initial equity, and are strictly negative assuming the
total upfront cost exceeds the loan principal (positive initial equity); for
every interior year the pre-tax entry minus the post-tax entry is that year's
tax payable; and the final entries differ by the final year's tax payable plus
the capital-gains tax. -/
theorem C2_stream_shape (p : ScenarioParameters) (k : ℕ) (hp : InDomain p) :
    (cash_flows_pre_tax p).length = p.holding_period + 1
      ∧ (cash_flows_post_tax p).length = p.holding_period + 1
      ∧ (cash_flows_pre_tax p).getD 0 0 = -(initial_equity p)
      ∧ (cash_flows_post_tax p).getD 0 0 = -(initial_equity p)
      ∧ (p.l_amount < total_upfront_cost p →
          (cash_flows_pre_tax p).getD 0 0 < 0)
      ∧ (1 ≤ k → k < p.holding_period →
          (cash_flows_pre_tax p).getD k 0 - (cash_flows_post_tax p).getD k 0
            = (recordAt p k).tax)
      ∧ (cash_flows_pre_tax p).getD p.holding_period 0
          - (cash_flows_post_tax p).getD p.holding_period 0
        = (recordAt p p.holding_period).tax + cgt_payable p := by
  have hh : 1 ≤ p.holding_period := by
    obtain ⟨-, -, -, -, -, -, -, -, -, -, -, -, -, -, -, hh⟩ := hp
    exact hh
  have hlenpre : ((interior_years p).map
      fun y => (recordAt p y).preTaxCF).length = p.holding_period - 1 := by
    simp [interior_years]
  have hlenpost : ((interior_years p).map
      fun y => (recordAt p y).postTaxCF).length = p.holding_period - 1 := by
    simp [interior_years]
  refine ⟨?_, ?_, rfl, rfl, ?_, ?_, ?_⟩
  · rw [cash_flows_pre_tax]
    simp only [List.length_cons, List.length_append, List.length_map,
      interior_years, List.length_range', List.length_singleton,
      List.length_nil]
    omega
  · rw [cash_flows_post_tax]
    simp only [List.length_cons, List.length_append, List.length_map,
      interior_years, List.length_range', List.length_singleton,
      List.length_nil]
    omega
  · intro hlt
    show -(initial_equity p) < 0
    unfold initial_equity
    linarith
  · intro h1 h2
    obtain ⟨j, rfl⟩ : ∃ j, k = j + 1 := ⟨k - 1, by omega⟩
    rw [cash_flows_pre_tax, cash_flows_post_tax, getD_cons_add_one,
      getD_cons_add_one]
    rw [getD_append_left _ _ j 0 (by rw [hlenpre]; omega),
      getD_append_left _ _ j 0 (by rw [hlenpost]; omega)]
    unfold interior_years
    rw [getD_map_range' _ (p.holding_period - 1) 1 j (by omega),
      getD_map_range' _ (p.holding_period - 1) 1 j (by omega)]
    have hcomm : 1 + j = j + 1 := Nat.add_comm 1 j
    rw [hcomm]
    exact recordAt_pre_sub_post p (j + 1) (by omega)
  · obtain ⟨j, hj⟩ : ∃ j, p.holding_period = j + 1 :=
      ⟨p.holding_period - 1, by omega⟩
    have hA := recordAt_pre_sub_post p p.holding_period hh
    have hB := net_proceeds_sub p
    have hjj : p.holding_period - 1 = j := by omega
    have e1 := getD_append_last
      ((recordAt p p.holding_period).preTaxCF + net_proceeds_pre_tax p) 0
      ((interior_years p).map fun y => (recordAt p y).preTaxCF)
    have e2 := getD_append_last
      ((recordAt p p.holding_period).postTaxCF + net_proceeds_post_tax p) 0
      ((interior_years p).map fun y => (recordAt p y).postTaxCF)
    rw [hlenpre, hjj] at e1
    rw [hlenpost, hjj] at e2
    rw [cash_flows_pre_tax, cash_flows_post_tax, hj, getD_cons_add_one,
      getD_cons_add_one]
    rw [hj] at e1 e2
    rw [e1, e2]
    rw [hj] at hA
    linarith

/-- Witness for the amended C2 at the §8 example, interior year 1. -/
theorem C2_stream_shape_witness :
    (cash_flows_pre_tax exampleParams).length
        = exampleParams.holding_period + 1
      ∧ (cash_flows_post_tax exampleParams).length
        = exampleParams.holding_period + 1
      ∧ (cash_flows_pre_tax exampleParams).getD 0 0
        = -(initial_equity exampleParams)
      ∧ (cash_flows_post_tax exampleParams).getD 0 0
        = -(initial_equity exampleParams)
      ∧ exampleParams.l_amount < total_upfront_cost exampleParams
      ∧ (cash_flows_pre_tax exampleParams).getD 0 0 < 0
      ∧ (cash_flows_pre_tax exampleParams).getD 1 0
          - (cash_flows_post_tax exampleParams).getD 1 0
        = (recordAt exampleParams 1).tax
      ∧ (cash_flows_pre_tax exampleParams).getD exampleParams.holding_period 0
          - (cash_flows_post_tax exampleParams).getD
              exampleParams.holding_period 0
        = (recordAt exampleParams exampleParams.holding_period).tax
            + cgt_payable exampleParams := by
  have h := C2_stream_shape exampleParams 1 exampleParams_inDomain
  have hlt : exampleParams.l_amount < total_upfront_cost exampleParams := by
    unfold total_upfront_cost stamp_duty closing_costs exampleParams
    norm_num
  exact ⟨h.1, h.2.1, h.2.2.1, h.2.2.2.1, hlt, h.2.2.2.2.1 hlt,
    h.2.2.2.2.2.1 (by decide) (by decide), h.2.2.2.2.2.2⟩

/-! ### Cash-on-cash guard (claim C5) -/

/-- A degenerate but in-domain parameter set (worthless property, no loan, no
rent): every post-tax flow is zero while the invested cash is positive. -/
def pZeroHouse : ScenarioParameters :=
  { p_price := 0
    l_amount := 0
    i_rate := 0
    loan_term := 10
    interest_only_period := 0
    weekly_rent := 0
    vacancy_rate := 0
    annual_opex := 0
    land_tax := 0
    marginal_tax_rate := 0
    cap_growth := 0
    cpi_rate := 0
    holding_period := 1 }

theorem pZeroHouse_inDomain : InDomain pZeroHouse := by
  unfold InDomain pZeroHouse allowed_tax_rates
  norm_num

theorem pZeroHouse_state1 : stateAt pZeroHouse 1 = ⟨0, 0, 0, 0, 0⟩ := by
  show (stepYear pZeroHouse 1 (initState pZeroHouse)).2 = _
  norm_num [stepYear, initState, inflate, loanCalc, remaining_term, pmt,
    pZeroHouse]

theorem pZeroHouse_record1 :
    recordAt pZeroHouse 1 = ⟨1, 0, 0, 0, 0, 0, 0, 0, 0, 0, 0⟩ := by
  show (stepYear pZeroHouse 1 (initState pZeroHouse)).1 = _
  norm_num [stepYear, initState, inflate, loanCalc, remaining_term, pmt,
    depreciation, pZeroHouse]

theorem pZeroHouse_out : total_cash_out pZeroHouse = 2000 := by
  show initial_equity pZeroHouse
      + (stateAt pZeroHouse 1).total_principal_paid = 2000
  rw [pZeroHouse_state1]
  unfold initial_equity total_upfront_cost stamp_duty closing_costs pZeroHouse
  norm_num

theorem pZeroHouse_in : total_cash_in pZeroHouse = 0 := by
  have hh : pZeroHouse.holding_period = 1 := rfl
  have hled : ledger pZeroHouse = [recordAt pZeroHouse 0, recordAt pZeroHouse 1] := by
    show (List.range 2).map (recordAt pZeroHouse) = _
    rw [List.range_succ, List.range_succ, List.range_zero]
    simp
  rw [total_cash_in, hled]
  simp only [List.drop_succ_cons, List.drop_zero, List.map_cons, List.map_nil,
    List.sum_cons, List.sum_nil]
  simp only [net_proceeds_post_tax, sale_price, selling_costs, loan_balance,
    cgt_payable, taxable_gain, gross_gain, cost_base, stamp_duty,
    closing_costs, hh, pZeroHouse_record1]
  norm_num [pZeroHouse]

/-- Counterexample to the final sentence of claim C5 ("the multiple is 0
exactly when initial equity + total principal paid ≤ 0"): on `pZeroHouse` the
denominator is 2000 > 0 and yet the reported multiple is 0, because the
numerator vanishes. -/
theorem C5_counterexample :
    InDomain pZeroHouse ∧ (calculate_scenario pZeroHouse).coc = 0
      ∧ 0 < total_cash_out pZeroHouse := by
  refine ⟨pZeroHouse_inDomain, ?_, ?_⟩
  · show coc_total_outlay pZeroHouse = 0
    rw [coc_total_outlay, pZeroHouse_in, pZeroHouse_out]
    norm_num
  · rw [pZeroHouse_out]
    norm_num

/-- Claim C5 (amended): the cash-on-cash multiple is 0 whenever
(initial equity + total principal paid) ≤ 0, and otherwise equals the sum of
post-tax cash flows for years 1..holding_period plus the post-tax net
proceeds, divided by that denominator — never a failing division; the
multiple is 0 whenever the denominator is non-positive (though it can also be
0 for a vanishing numerator). -/
theorem C5_coc_guard (p : ScenarioParameters) (_hp : InDomain p) :
    (total_cash_out p ≤ 0 → (calculate_scenario p).coc = 0)
      ∧ (0 < total_cash_out p →
          (calculate_scenario p).coc = total_cash_in p / total_cash_out p) := by
  constructor
  · intro h
    show coc_total_outlay p = 0
    rw [coc_total_outlay, if_neg (not_lt.mpr h)]
  · intro h
    show coc_total_outlay p = total_cash_in p / total_cash_out p
    rw [coc_total_outlay, if_pos h]

/-- Witness for the amended C5 on `pZeroHouse`, whose denominator is
positive. -/
theorem C5_coc_guard_witness :
    0 < total_cash_out pZeroHouse
      ∧ (calculate_scenario pZeroHouse).coc
        = total_cash_in pZeroHouse / total_cash_out pZeroHouse := by
  have hpos : 0 < total_cash_out pZeroHouse := by
    rw [pZeroHouse_out]; norm_num
  exact ⟨hpos, (C5_coc_guard pZeroHouse pZeroHouse_inDomain).2 hpos⟩

/-! ### IRR failure handling (claim C6) -/

/-- Claim C6: an all-positive or all-negative stream makes the IRR solver
report no solution (`none`) rather than fail, and the remaining fields of the
`ScenarioResult` (ledger, cash-on-cash multiple, net profit) are computed
independently of the IRR outcome and always returned. -/
theorem C6_irr_same_sign (cfs : List ℚ) (p : ScenarioParameters)
    (h : (∀ x ∈ cfs, 0 < x) ∨ (∀ x ∈ cfs, x < 0)) (_hp : InDomain p) :
    irr cfs = none
      ∧ (calculate_scenario p).irr_post_tax = irr (cash_flows_post_tax p)
      ∧ (calculate_scenario p).coc = coc_total_outlay p
      ∧ (calculate_scenario p).net_profit = net_profit p
      ∧ (calculate_scenario p).data = ledger p := by
  refine ⟨?_, rfl, rfl, rfl, rfl⟩
  rw [irr]
  rcases h with h | h
  · have hall : (cfs.all fun c => decide (0 < c)) = true := by
      rw [List.all_eq_true]
      intro x hx
      simpa using h x hx
    rw [hall, Bool.true_or, if_pos rfl]
  · have hall : (cfs.all fun c => decide (c < 0)) = true := by
      rw [List.all_eq_true]
      intro x hx
      simpa using h x hx
    rw [hall, Bool.or_true, if_pos rfl]

/-- Witness for C6: the all-positive stream [1, 2, 3] gets no IRR, while the
`pZeroHouse` scenario's non-IRR fields are intact. -/
theorem C6_irr_same_sign_witness :
    irr [1, 2, 3] = none
      ∧ (calculate_scenario pZeroHouse).irr_post_tax
        = irr (cash_flows_post_tax pZeroHouse)
      ∧ (calculate_scenario pZeroHouse).coc = coc_total_outlay pZeroHouse
      ∧ (calculate_scenario pZeroHouse).net_profit = net_profit pZeroHouse
      ∧ (calculate_scenario pZeroHouse).data = ledger pZeroHouse :=
  C6_irr_same_sign [1, 2, 3] pZeroHouse (Or.inl (by decide))
    pZeroHouse_inDomain

/-! ### Sensitivity sweep (claim C7) -/

theorem getD_map_of_lt {α β : Type} (f : α → β) (l : List α) :
    ∀ (i : ℕ) (d : β) (d' : α), i < l.length →
      (l.map f).getD i d = f (l.getD i d') := by
  induction l with
  | nil =>
    intro i d d' h
    simp at h
  | cons a t ih =>
    intro i d d' h
    cases i with
    | zero => rfl
    | succ n =>
      show (t.map f).getD n d = f (t.getD n d')
      exact ih n d d' (by simpa using h)

/-- Claim C7: every cell (i, j) of the sweep matrix equals the post-tax IRR
of the engine run with only the interest rate replaced by the i-th axis entry
and the capital growth rate by the j-th; a 1×1 sweep therefore reproduces a
direct invocation. -/
theorem C7_sweep_cell (base : ScenarioParameters) (irs cgs : List ℚ)
    (i j : ℕ) (_hp : InDomain base) (hi : i < irs.length)
    (hj : j < cgs.length) :
    ((sweep base irs cgs).getD i []).getD j none
      = (calculate_scenario
          (withRates base (irs.getD i 0) (cgs.getD j 0))).irr_post_tax := by
  rw [sweep]
  rw [getD_map_of_lt _ irs i [] 0 hi]
  rw [getD_map_of_lt _ cgs j none 0 hj]

/-- Witness for C7: a 1×1 sweep at the §8 example's own rates. -/
theorem C7_sweep_cell_witness :
    ((sweep exampleParams [6/100] [5/100]).getD 0 []).getD 0 none
      = (calculate_scenario
          (withRates exampleParams (([6/100] : List ℚ).getD 0 0)
            (([5/100] : List ℚ).getD 0 0))).irr_post_tax :=
  C7_sweep_cell exampleParams [6/100] [5/100] 0 0 exampleParams_inDomain
    (by decide) (by decide)

end PropertyCalc
